import Mathlib

/-!
Shallow embedding of `src/plugins/feishumsg/__init__.py` (class `FeishuPlugin`).

Modelling conventions:
* Python `None`-able values are `Option`; Python truthiness of a string-valued
  slot (`if self._access_token:`, `if not app_id`, `if channel:`) is the
  `optStrTruthy` predicate: `none` and `some ""` are falsy.
* `time.time()` is a `Nat` supplied per call in `Env.now` (the two reads of the
  clock inside one `_get_access_token` call are identified).
* The two HTTP endpoints are oracles in `Env`: `Except String α` where the
  `.error` constructor is a transport-level exception (connection failure,
  timeout, non-JSON body) carrying the exception text, and `.ok` is a decoded
  JSON response whose fields may be absent (`Option`), mirroring `dict.get`.
* Requests issued by the code are recorded in a `calls` trace; the `pooled`
  flag records whether `self._session` was used or a fresh one-shot
  `requests.Session()` was created (`session = self._session or requests.Session()`).
* Python exceptions that escape a method are the `.error` case of
  `Except String`; exceptions caught by a `try/except` block never reach that
  layer and instead produce a logged error and a `False`/`None` return,
  exactly as in the source.
* Log statements (`self.info/warn/error/debug`) are recorded as `LogEvent`s;
  interpolated data is abbreviated but the branch structure is the source's.
-/

deriving instance DecidableEq for Except

/-- Python truthiness of an optional string: `None` and `""` are falsy. -/
def optStrTruthy : Option String → Bool
  | some s => !(s == "")
  | none => false

/-- The recognized keys of `plugin_config` (values as `dict.get` sees them:
a missing key is `none`). -/
structure PluginConfig where
  enabled : Bool
  feishu_app_id : Option String
  feishu_app_secret : Option String
  use_long_connection : Bool
deriving DecidableEq, Repr

/-- Mutable instance state of `FeishuPlugin`: `_session` (identified by an
opaque `Nat` id when present), `_access_token`, `_token_expiry`, and the
config mapping the methods read. -/
structure PluginState where
  session : Option Nat
  accessToken : Option String
  tokenExpiry : Nat
  config : PluginConfig
deriving DecidableEq, Repr

/-- JSON body returned by the token endpoint; `code` and `app_access_token`
are read with `dict.get` / `dict.__getitem__`, so either may be absent. -/
structure TokenResp where
  code : Option Int
  app_access_token : Option String
deriving DecidableEq, Repr

/-- JSON body returned by the message endpoint. -/
structure MsgResp where
  code : Option Int
deriving DecidableEq, Repr

/-- Environment of one method call: the current clock and the behaviour of the
two HTTP endpoints (`.error e` = transport exception with text `e`). -/
structure Env where
  now : Nat
  tokenEndpoint : Except String TokenResp
  msgEndpoint : Except String MsgResp

/-- A button entry of the `buttons` argument: a Python dict that may lack the
`"text"` / `"callback_data"` keys; `primary` models the truthiness of
`btn.get("primary")` (absent key = falsy). -/
structure BtnDict where
  text : Option String
  callback_data : Option String
  primary : Bool
deriving DecidableEq, Repr

/-- A rendered button inside an action block:
`{"tag":"button","text":{"tag":"plain_text","content":text},"type":btnType,
"value":{"type":"callback","data":value}}`. -/
structure CardButton where
  text : String
  btnType : String
  value : String
deriving DecidableEq, Repr

/-- One element of `card["elements"]`: the leading text div
(`{"tag":"div","text":{"tag":"lark_md","content":·}}`) or an appended action
block. -/
inductive CardElement where
  | textDiv (content : String)
  | action (buttons : List CardButton)
deriving DecidableEq, Repr

/-- The card header `{"title":{"tag":tag,"content":content},"template":template}`. -/
structure CardHeader where
  tag : String
  content : String
  template : String
deriving DecidableEq, Repr

/-- The interactive card built by `post_message` (lines 101-117). -/
structure Card where
  wideScreen : Bool
  header : CardHeader
  elements : List CardElement
deriving DecidableEq, Repr

/-- One outbound HTTP request made by the plugin. `pooled` is true when
`self._session` was used, false when a fresh `requests.Session()` was
created in its place. -/
inductive NetCall where
  | tokenCall (pooled : Bool) (app_id app_secret : String)
  | msgCall (pooled : Bool) (token channel : String) (card : Card)
deriving DecidableEq, Repr

/-- Whether a recorded request went to the message endpoint. -/
def NetCall.isMsg : NetCall → Bool
  | .tokenCall _ _ _ => false
  | .msgCall _ _ _ _ => true

/-- Whether a recorded request used the pooled session. -/
def NetCall.pooled : NetCall → Bool
  | .tokenCall p _ _ => p
  | .msgCall p _ _ _ => p

/-- A log line emitted through the host logging capability. -/
inductive LogEvent where
  | debug (msg : String)
  | info (msg : String)
  | warn (msg : String)
  | error (msg : String)
deriving DecidableEq, Repr

/-- Result of one `_get_access_token` call: the returned value, the state
after the call, the requests issued and the log lines emitted. -/
structure TokenOut where
  result : Option String
  state : PluginState
  calls : List NetCall
  logs : List LogEvent
deriving DecidableEq, Repr

/-- `_get_access_token` (lines 68-91).  Branches, in source order:
cache hit (`self._access_token and time.time() < self._token_expiry`);
missing credentials (`if not app_id or not app_secret`); then the guarded
network call: transport exception caught (`except Exception`), success code
`0` with the token cached and `_token_expiry = time.time() + 5400`
(a `code == 0` response lacking the `app_access_token` key raises `KeyError`
inside the `try`, landing in the same `except` branch), and any other
response logged with `return None`. -/
def getAccessToken (st : PluginState) (env : Env) : TokenOut :=
  if optStrTruthy st.accessToken && decide (env.now < st.tokenExpiry) then
    { result := st.accessToken, state := st, calls := [], logs := [] }
  else
    let app_id := st.config.feishu_app_id
    let app_secret := st.config.feishu_app_secret
    if !optStrTruthy app_id || !optStrTruthy app_secret then
      { result := none, state := st, calls := [],
        logs := [.warn "❌ 飞书凭证未配置"] }
    else
      let pooled := st.session.isSome
      let call := NetCall.tokenCall pooled (app_id.getD "") (app_secret.getD "")
      match env.tokenEndpoint with
      | .error e =>
          { result := none, state := st, calls := [call],
            logs := [.error ("❌ Token请求异常: " ++ e)] }
      | .ok data =>
          if data.code == some 0 then
            match data.app_access_token with
            | some tok =>
                { result := some tok,
                  state := { st with accessToken := some tok,
                                     tokenExpiry := env.now + 5400 },
                  calls := [call], logs := [] }
            | none =>
                { result := none, state := st, calls := [call],
                  logs := [.error "❌ Token请求异常: KeyError"] }
          else
            { result := none, state := st, calls := [call],
              logs := [.error "❌ Token获取失败"] }

/-- Rendering of one button dict (lines 111-116): `btn["text"]` and
`btn["callback_data"]` raise `KeyError` when absent — this happens outside
any `try`, so the error is returned as the pipeline's uncaught exception. -/
def buildButton (btn : BtnDict) : Except String CardButton :=
  match btn.text with
  | none => .error "KeyError: text"
  | some t =>
    match btn.callback_data with
    | none => .error "KeyError: callback_data"
    | some cd =>
      .ok { text := t,
            btnType := if btn.primary then "primary" else "default",
            value := cd }

/-- The inner loop `for btn in row` building `actions` in order; the first
missing key aborts with the `KeyError`. -/
def buildRow : List BtnDict → Except String (List CardButton)
  | [] => .ok []
  | b :: bs =>
    match buildButton b with
    | .error e => .error e
    | .ok cb =>
      match buildRow bs with
      | .error e => .error e
      | .ok cbs => .ok (cb :: cbs)

/-- The outer loop `for row in buttons`, appending one action element per row
(an empty row still appends an action element with an empty `actions` list). -/
def buildActions : List (List BtnDict) → Except String (List CardElement)
  | [] => .ok []
  | row :: rest =>
    match buildRow row with
    | .error e => .error e
    | .ok btns =>
      match buildActions rest with
      | .error e => .error e
      | .ok elems => .ok (CardElement.action btns :: elems)

/-- The card construction of `post_message` (lines 101-117): fixed config and
header template, body div with `text or " "`, then one action element per
button row.  `buttons` is the Python argument (default `None`); the
`if buttons:` guard only skips an empty loop, so `none` and `some []` build
the same card. -/
def buildCard (title text : String) (buttons : Option (List (List BtnDict))) :
    Except String Card :=
  match buildActions (buttons.getD []) with
  | .error e => .error e
  | .ok elems =>
    .ok { wideScreen := true,
          header := { tag := "plain_text", content := title, template := "blue" },
          elements := CardElement.textDiv (if text == "" then " " else text) :: elems }

/-- Result of one `post_message` call (when no exception escapes). -/
structure MsgOut where
  result : Bool
  state : PluginState
  calls : List NetCall
  logs : List LogEvent
deriving DecidableEq, Repr

/-- `post_message` (lines 93-138).  Token acquisition first (`if not token:
return False` is the truthiness test); then the card is built *outside* the
`try` block, so a `KeyError` from a button dict escapes as `.error`; the send
itself is guarded: a transport exception is logged and yields `False`, a
`code == 0` response yields `True`, anything else is logged and yields
`False`. -/
def postMessage (st : PluginState) (env : Env) (channel title : String)
    (text : String) (userid : Option String)
    (buttons : Option (List (List BtnDict))) : Except String MsgOut :=
  let tk := getAccessToken st env
  if !optStrTruthy tk.result then
    .ok { result := false, state := tk.state, calls := tk.calls, logs := tk.logs }
  else
    let token := tk.result.getD ""
    match buildCard title text buttons with
    | .error e => .error e
    | .ok card =>
      let pooled := tk.state.session.isSome
      let call := NetCall.msgCall pooled token channel card
      match env.msgEndpoint with
      | .error e =>
          .ok { result := false, state := tk.state, calls := tk.calls ++ [call],
                logs := tk.logs ++ [.error ("❌ 消息发送异常: " ++ e)] }
      | .ok r =>
          if r.code == some 0 then
            .ok { result := true, state := tk.state, calls := tk.calls ++ [call],
                  logs := tk.logs ++ [.info ("✅ 消息已发送至 " ++ channel)] }
          else
            .ok { result := false, state := tk.state, calls := tk.calls ++ [call],
                  logs := tk.logs ++ [.error "❌ 消息发送失败"] }

/-- Result of one `stop` call: the new state together with the ids of the
sessions whose `close()` was invoked. -/
structure StopOut where
  state : PluginState
  closed : List Nat
  logs : List LogEvent
deriving DecidableEq, Repr

/-- `stop` (lines 149-155): close and clear the session if present, always
clear the token. -/
def stop (st : PluginState) : StopOut :=
  match st.session with
  | some s =>
      { state := { st with session := none, accessToken := none },
        closed := [s], logs := [.info "⏹️ 飞书插件已停止"] }
  | none =>
      { state := { st with accessToken := none },
        closed := [], logs := [.info "⏹️ 飞书插件已停止"] }

/-- The fixed two-row menu grid of `_send_main_menu` (lines 181-184). -/
def mainMenuButtons : List (List BtnDict) :=
  [ [ { text := some "🎬 媒体库", callback_data := some "media", primary := true },
      { text := some "🔍 搜索", callback_data := some "search", primary := false } ],
    [ { text := some "⚙️ 设置", callback_data := some "settings", primary := false } ] ]

/-- Menu title literal of `_send_main_menu`. -/
def menuTitle : String := "🤖 MoviePilot 飞书助手"

/-- Menu body literal of `_send_main_menu`. -/
def menuBody : String := "点击下方按钮开始操作："

/-- `_send_main_menu` (lines 180-185). -/
def sendMainMenu (st : PluginState) (env : Env) (channel : String) :
    Except String MsgOut :=
  postMessage st env channel menuTitle menuBody none (some mainMenuButtons)

/-- An event payload as `handle_command` reads it: `event_data.get("action")`,
`get("channel")`, `get("user")`. -/
structure CommandEvent where
  action : Option String
  channel : Option String
  user : Option String
deriving DecidableEq, Repr

/-- Python `a or b` on two optional strings: keep `a` when truthy, else `b`. -/
def orStr (a b : Option String) : Option String :=
  if optStrTruthy a then a else b

/-- Observable outcome of one `handle_command` call (the method itself returns
`None`; state, requests and logs are the effects). -/
structure HandlerOut where
  state : PluginState
  calls : List NetCall
  logs : List LogEvent
deriving DecidableEq, Repr

/-- `handle_command` (lines 196-202): on the `send_feishu_menu` action,
resolve `channel or user`, and when truthy send the main menu followed by an
info log; otherwise do nothing. -/
def handleCommand (st : PluginState) (env : Env) (e : CommandEvent) :
    Except String HandlerOut :=
  if e.action == some "send_feishu_menu" then
    let channel := orStr e.channel e.user
    if optStrTruthy channel then
      match sendMainMenu st env (channel.getD "") with
      | .error err => .error err
      | .ok o =>
          .ok { state := o.state, calls := o.calls,
                logs := o.logs ++ [.info ("📤 已发送菜单至 " ++ channel.getD "")] }
    else
      .ok { state := st, calls := [], logs := [] }
  else
    .ok { state := st, calls := [], logs := [] }

/-!
Interleaving model of concurrent `_get_access_token` callers.

The source (lines 68-91) contains no lock or other mutual-exclusion
primitive, so the read-check / fetch / write sequence of two concurrent
callers can interleave at the statement boundaries.  Each thread executes:
(1) atomically read `_access_token` / `_token_expiry` and test validity
(line 70); if valid it finishes with the cached value, else
(2) it performs the network call and writes the cache (lines 82-87),
finishing with the fresh token.  `netCalls` counts token-endpoint requests.
-/

/-- The shared credential cache (`self._access_token`, `self._token_expiry`). -/
structure SharedCache where
  accessToken : Option String
  tokenExpiry : Nat
deriving DecidableEq, Repr

/-- Progress of one thread through `_get_access_token`. -/
inductive ThreadPhase where
  | start
  | needFetch
  | finished (r : Option String)
deriving DecidableEq, Repr

/-- State of a two-thread execution. -/
structure ConcState where
  cache : SharedCache
  t0 : ThreadPhase
  t1 : ThreadPhase
  netCalls : Nat
deriving DecidableEq, Repr

/-- One atomic step of a thread running `_get_access_token`: the cache check
(line 70), or the fetch-and-write (lines 82-87, counted as one network
call). -/
def stepGetToken (now : Nat) (tok : String) (cache : SharedCache)
    (ph : ThreadPhase) (calls : Nat) : SharedCache × ThreadPhase × Nat :=
  match ph with
  | .start =>
      if optStrTruthy cache.accessToken && decide (now < cache.tokenExpiry) then
        (cache, .finished cache.accessToken, calls)
      else
        (cache, .needFetch, calls)
  | .needFetch =>
      ({ accessToken := some tok, tokenExpiry := now + 5400 },
       .finished (some tok), calls + 1)
  | .finished r => (cache, .finished r, calls)

/-- Run a schedule (`false` = step thread 0, `true` = step thread 1) from a
given state; the token endpoint deterministically succeeds with `tok`. -/
def runSchedule (now : Nat) (tok : String) : List Bool → ConcState → ConcState
  | [], s => s
  | b :: rest, s =>
    if b then
      let r := stepGetToken now tok s.cache s.t1 s.netCalls
      runSchedule now tok rest { s with cache := r.1, t1 := r.2.1, netCalls := r.2.2 }
    else
      let r := stepGetToken now tok s.cache s.t0 s.netCalls
      runSchedule now tok rest { s with cache := r.1, t0 := r.2.1, netCalls := r.2.2 }

/-- Two threads starting with an empty cache. -/
def concInit : ConcState :=
  { cache := { accessToken := none, tokenExpiry := 0 },
    t0 := .start, t1 := .start, netCalls := 0 }

/-!  Concrete fixtures used by witnesses and counterexamples.  -/

/-- A fully-populated configuration. -/
def cfgFull : PluginConfig :=
  { enabled := true, feishu_app_id := some "app", feishu_app_secret := some "sec",
    use_long_connection := true }

/-- A configuration with the app id missing. -/
def cfgNoCred : PluginConfig :=
  { enabled := true, feishu_app_id := none, feishu_app_secret := some "sec",
    use_long_connection := true }

/-- State holding a valid cached token (expiry 100). -/
def stTok : PluginState :=
  { session := none, accessToken := some "tok", tokenExpiry := 100, config := cfgFull }

/-- State with no cached token and full credentials. -/
def stFresh : PluginState :=
  { session := some 1, accessToken := none, tokenExpiry := 0, config := cfgFull }

/-- State with no cached token and missing credentials. -/
def stNoCred : PluginState :=
  { session := none, accessToken := none, tokenExpiry := 0, config := cfgNoCred }

/-- State with a live session, used to exercise `stop`. -/
def stLive : PluginState :=
  { session := some 7, accessToken := some "old", tokenExpiry := 999999, config := cfgFull }

/-- Environment whose endpoints are never reached. -/
def envIdle : Env :=
  { now := 0, tokenEndpoint := .error "unreachable", msgEndpoint := .error "unreachable" }

/-- Environment where the token endpoint succeeds with token `"tok"` at time 10. -/
def envTokOk : Env :=
  { now := 10, tokenEndpoint := .ok { code := some 0, app_access_token := some "tok" },
    msgEndpoint := .error "unreachable" }

/-- Environment at a later instant inside the validity window of a token
issued at time 10. -/
def envLater : Env :=
  { now := 5000, tokenEndpoint := .error "unreachable", msgEndpoint := .error "unreachable" }

/-- Environment at the last instant of the validity window (5409 = 10 + 5400 - 1). -/
def envAlmost : Env :=
  { now := 5409, tokenEndpoint := .error "unreachable", msgEndpoint := .error "unreachable" }

/-- Environment at the first instant past the validity window (5410 = 10 + 5400). -/
def envExpired : Env :=
  { now := 5410, tokenEndpoint := .error "late", msgEndpoint := .error "unreachable" }

/-- Environment where the token endpoint rejects with code 99. -/
def envBad : Env :=
  { now := 10, tokenEndpoint := .ok { code := some 99, app_access_token := none },
    msgEndpoint := .error "unreachable" }

/-- Environment where token issuance succeeds but the message endpoint
rejects with code 99. -/
def envTokOkMsgFail : Env :=
  { now := 10, tokenEndpoint := .ok { code := some 0, app_access_token := some "tok" },
    msgEndpoint := .ok { code := some 99 } }

/-- Environment where the message endpoint rejects with code 99 (token
endpoint unreachable; a cached token is expected). -/
def envMsgFail : Env :=
  { now := 0, tokenEndpoint := .error "unreachable", msgEndpoint := .ok { code := some 99 } }

/-- Environment where both endpoints succeed. -/
def envAllOk : Env :=
  { now := 10, tokenEndpoint := .ok { code := some 0, app_access_token := some "tok" },
    msgEndpoint := .ok { code := some 0 } }

/-- The card built for title `"t"`, empty body and no buttons. -/
def cardPlain : Card :=
  { wideScreen := true,
    header := { tag := "plain_text", content := "t", template := "blue" },
    elements := [.textDiv " "] }

/-- Completeness of one button dict: both mandatory keys present. -/
def btnComplete (b : BtnDict) : Bool :=
  b.text.isSome && b.callback_data.isSome

/-- The pure rendering of one complete button dict. -/
def renderBtn (b : BtnDict) : CardButton :=
  { text := b.text.getD "",
    btnType := if b.primary then "primary" else "default",
    value := b.callback_data.getD "" }

/-- The card built by `_send_main_menu`'s request. -/
def menuCard : Card :=
  { wideScreen := true,
    header := { tag := "plain_text", content := menuTitle, template := "blue" },
    elements :=
      [ .textDiv menuBody,
        .action [ { text := "🎬 媒体库", btnType := "primary", value := "media" },
                  { text := "🔍 搜索", btnType := "default", value := "search" } ],
        .action [ { text := "⚙️ 设置", btnType := "default", value := "settings" } ] ] }

/-- Outcome of `post_message` on `stTok`/`envMsgFail` with title `"t"`, empty
body, no buttons: delivery failure with the cache untouched. -/
def outMsgFail : MsgOut :=
  { result := false, state := stTok,
    calls := [.msgCall false "tok" "oc_1" cardPlain],
    logs := [.error "❌ 消息发送失败"] }

/-- Outcome of `post_message` after `stop stLive`, under `envAllOk`: a fresh
token is fetched and the message delivered, both over one-shot sessions. -/
def outAfterStop : MsgOut :=
  { result := true,
    state := { session := none, accessToken := some "tok", tokenExpiry := 5410,
               config := cfgFull },
    calls := [.tokenCall false "app" "sec", .msgCall false "tok" "oc_1" cardPlain],
    logs := [.info "✅ 消息已发送至 oc_1"] }

/-!  Helper lemmas about the branches of `_get_access_token` and `post_message`.  -/

theorem getAccessToken_hit (st : PluginState) (env : Env)
    (h1 : optStrTruthy st.accessToken = true) (h2 : env.now < st.tokenExpiry) :
    getAccessToken st env =
      { result := st.accessToken, state := st, calls := [], logs := [] } := by
  simp [getAccessToken, h1, h2]

theorem missCond (st : PluginState) (env : Env)
    (hmiss : optStrTruthy st.accessToken = false ∨ st.tokenExpiry ≤ env.now) :
    (optStrTruthy st.accessToken && decide (env.now < st.tokenExpiry)) = false := by
  rcases hmiss with h | h
  · simp [h]
  · simp [decide_eq_false (Nat.not_lt.mpr h)]

theorem getAccessToken_refresh (st : PluginState) (env : Env) (tok : String)
    (hmiss : optStrTruthy st.accessToken = false ∨ st.tokenExpiry ≤ env.now)
    (hid : optStrTruthy st.config.feishu_app_id = true)
    (hsec : optStrTruthy st.config.feishu_app_secret = true)
    (henv : env.tokenEndpoint = .ok { code := some 0, app_access_token := some tok }) :
    getAccessToken st env =
      { result := some tok,
        state := { st with accessToken := some tok, tokenExpiry := env.now + 5400 },
        calls := [.tokenCall st.session.isSome (st.config.feishu_app_id.getD "")
                    (st.config.feishu_app_secret.getD "")],
        logs := [] } := by
  simp [getAccessToken, missCond st env hmiss, hid, hsec, henv]

theorem getAccessToken_noCreds (st : PluginState) (env : Env)
    (hmiss : optStrTruthy st.accessToken = false ∨ st.tokenExpiry ≤ env.now)
    (hcfg : optStrTruthy st.config.feishu_app_id = false ∨
            optStrTruthy st.config.feishu_app_secret = false) :
    getAccessToken st env =
      { result := none, state := st, calls := [],
        logs := [.warn "❌ 飞书凭证未配置"] } := by
  rcases hcfg with h | h <;>
    simp [getAccessToken, missCond st env hmiss, h]

theorem getAccessToken_exn (st : PluginState) (env : Env) (e : String)
    (hmiss : optStrTruthy st.accessToken = false ∨ st.tokenExpiry ≤ env.now)
    (hid : optStrTruthy st.config.feishu_app_id = true)
    (hsec : optStrTruthy st.config.feishu_app_secret = true)
    (henv : env.tokenEndpoint = .error e) :
    getAccessToken st env =
      { result := none, state := st,
        calls := [.tokenCall st.session.isSome (st.config.feishu_app_id.getD "")
                    (st.config.feishu_app_secret.getD "")],
        logs := [.error ("❌ Token请求异常: " ++ e)] } := by
  simp [getAccessToken, missCond st env hmiss, hid, hsec, henv]

theorem getAccessToken_badCode (st : PluginState) (env : Env) (d : TokenResp)
    (hmiss : optStrTruthy st.accessToken = false ∨ st.tokenExpiry ≤ env.now)
    (hid : optStrTruthy st.config.feishu_app_id = true)
    (hsec : optStrTruthy st.config.feishu_app_secret = true)
    (henv : env.tokenEndpoint = .ok d) (hcode : d.code ≠ some 0) :
    getAccessToken st env =
      { result := none, state := st,
        calls := [.tokenCall st.session.isSome (st.config.feishu_app_id.getD "")
                    (st.config.feishu_app_secret.getD "")],
        logs := [.error "❌ Token获取失败"] } := by
  simp [getAccessToken, missCond st env hmiss, hid, hsec, henv, hcode]

theorem getAccessToken_miss_calls (st : PluginState) (env : Env)
    (hmiss : optStrTruthy st.accessToken = false ∨ st.tokenExpiry ≤ env.now)
    (hid : optStrTruthy st.config.feishu_app_id = true)
    (hsec : optStrTruthy st.config.feishu_app_secret = true) :
    (getAccessToken st env).calls =
      [.tokenCall st.session.isSome (st.config.feishu_app_id.getD "")
         (st.config.feishu_app_secret.getD "")] := by
  cases henv : env.tokenEndpoint with
  | error e => simp [getAccessToken_exn st env e hmiss hid hsec henv]
  | ok d =>
    by_cases hcode : d.code = some 0
    · cases htok : d.app_access_token with
      | some tok =>
        have hd : d = { code := some 0, app_access_token := some tok } := by
          cases d; simp_all
        rw [hd] at henv
        simp [getAccessToken_refresh st env tok hmiss hid hsec henv]
      | none =>
        simp [getAccessToken, missCond st env hmiss, hid, hsec, henv, hcode, htok]
    · simp [getAccessToken_badCode st env d hmiss hid hsec henv hcode]

theorem getAccessToken_session (st : PluginState) (env : Env) :
    (getAccessToken st env).state.session = st.session := by
  unfold getAccessToken
  dsimp only
  cases henv : env.tokenEndpoint with
  | error e => split_ifs <;> rfl
  | ok d =>
    dsimp only
    cases htok : d.app_access_token <;> split_ifs <;> rfl

theorem postMessage_noToken (st : PluginState) (env : Env)
    (channel title text : String) (userid : Option String)
    (buttons : Option (List (List BtnDict)))
    (h : optStrTruthy (getAccessToken st env).result = false) :
    postMessage st env channel title text userid buttons =
      .ok { result := false, state := (getAccessToken st env).state,
            calls := (getAccessToken st env).calls,
            logs := (getAccessToken st env).logs } := by
  simp [postMessage, h]

theorem buildButton_complete (b : BtnDict) (h : btnComplete b = true) :
    buildButton b = .ok (renderBtn b) := by
  obtain ⟨ot, oc, p⟩ := b
  cases ot <;> cases oc <;> simp_all [btnComplete, buildButton, renderBtn]

theorem buildRow_complete (row : List BtnDict)
    (h : ∀ b ∈ row, btnComplete b = true) :
    buildRow row = .ok (row.map renderBtn) := by
  induction row with
  | nil => rfl
  | cons b bs ih =>
    rw [List.map_cons, buildRow,
        buildButton_complete b (h b (List.mem_cons_self b bs)),
        ih (fun x hx => h x (List.mem_cons_of_mem b hx))]

theorem buildActions_complete (rows : List (List BtnDict))
    (h : ∀ row ∈ rows, ∀ b ∈ row, btnComplete b = true) :
    buildActions rows =
      .ok (rows.map (fun row => CardElement.action (row.map renderBtn))) := by
  induction rows with
  | nil => rfl
  | cons row rest ih =>
    rw [List.map_cons, buildActions,
        buildRow_complete row (h row (List.mem_cons_self row rest)),
        ih (fun r hr => h r (List.mem_cons_of_mem row hr))]

theorem buildCard_complete (title text : String)
    (buttons : Option (List (List BtnDict)))
    (h : ∀ row ∈ buttons.getD [], ∀ b ∈ row, btnComplete b = true) :
    buildCard title text buttons =
      .ok { wideScreen := true,
            header := { tag := "plain_text", content := title, template := "blue" },
            elements := CardElement.textDiv (if text == "" then " " else text) ::
              (buttons.getD []).map
                (fun row => CardElement.action (row.map renderBtn)) } := by
  rw [buildCard, buildActions_complete _ h]

theorem postMessage_ok_inv (st : PluginState) (env : Env)
    (channel title text : String) (userid : Option String)
    (buttons : Option (List (List BtnDict))) (out : MsgOut)
    (h : postMessage st env channel title text userid buttons = .ok out) :
    out.state = (getAccessToken st env).state ∧
    (out.calls = (getAccessToken st env).calls ∨
     ∃ card, out.calls = (getAccessToken st env).calls ++
        [NetCall.msgCall (getAccessToken st env).state.session.isSome
           ((getAccessToken st env).result.getD "") channel card]) := by
  unfold postMessage at h
  dsimp only at h
  split_ifs at h
  · injection h with h
    subst h
    exact ⟨rfl, Or.inl rfl⟩
  · cases hbc : buildCard title text buttons with
    | error e => rw [hbc] at h; exact absurd h (by simp)
    | ok card =>
      rw [hbc] at h
      dsimp only at h
      cases hm : env.msgEndpoint with
      | error e =>
        rw [hm] at h
        injection h with h
        subst h
        exact ⟨rfl, Or.inr ⟨card, rfl⟩⟩
      | ok r =>
        rw [hm] at h
        dsimp only at h
        split_ifs at h <;>
          (injection h with h; subst h; exact ⟨rfl, Or.inr ⟨card, rfl⟩⟩)

theorem postMessage_fail_result (st : PluginState) (env : Env)
    (channel title text : String) (userid : Option String)
    (buttons : Option (List (List BtnDict))) (d : MsgResp)
    (hd : env.msgEndpoint = .ok d) (hcode : d.code ≠ some 0) (out : MsgOut)
    (h : postMessage st env channel title text userid buttons = .ok out) :
    out.result = false := by
  unfold postMessage at h
  dsimp only at h
  split_ifs at h
  · injection h with h
    subst h
    rfl
  · cases hbc : buildCard title text buttons with
    | error e => rw [hbc] at h; exact absurd h (by simp)
    | ok card =>
      rw [hbc, hd] at h
      dsimp only at h
      have hc : (d.code == some 0) = false := by
        simp [hcode]
      rw [hc] at h
      simp only [if_neg Bool.false_ne_true] at h
      injection h with h
      subst h
      rfl

theorem getAccessToken_calls_shape (st : PluginState) (env : Env) :
    (getAccessToken st env).calls = [] ∨
    (getAccessToken st env).calls =
      [.tokenCall st.session.isSome (st.config.feishu_app_id.getD "")
         (st.config.feishu_app_secret.getD "")] := by
  unfold getAccessToken
  dsimp only
  cases henv : env.tokenEndpoint with
  | error e => split_ifs <;> simp
  | ok d =>
    dsimp only
    cases htok : d.app_access_token <;> split_ifs <;> simp

theorem getAccessToken_calls_pooled (st : PluginState) (env : Env)
    (hsess : st.session = none) :
    ∀ c ∈ (getAccessToken st env).calls, c.pooled = false := by
  intro c hc
  rcases getAccessToken_calls_shape st env with hsh | hsh <;> rw [hsh] at hc
  · simp at hc
  · simp at hc
    subst hc
    simp [NetCall.pooled, hsess]

/-!  Claim theorems.  -/

/-- C1 counterexample: with a valid cached token, a `buttons` value whose
button dict lacks the `"text"` key makes `post_message` raise an uncaught
`KeyError` while building the card (the construction happens outside the
`try` block), so the pipeline does not return a `DeliveryOutcome` value. -/
theorem postMessage_keyError_cex :
    postMessage stTok envIdle "oc_1" "t" "" none
        (some [[{ text := none, callback_data := none, primary := false }]]) =
      .error "KeyError: text" := rfl

/-- C1 (amended): for every request whose button dicts all contain the
`"text"` and `"callback_data"` keys, `post_message` returns a boolean
delivery outcome — in particular every transport-level exception at either
endpoint is handled locally and never propagates past the pipeline
boundary. -/
theorem postMessage_total (st : PluginState) (env : Env)
    (channel title text : String) (userid : Option String)
    (buttons : Option (List (List BtnDict)))
    (h : ∀ row ∈ buttons.getD [], ∀ b ∈ row, btnComplete b = true) :
    ∃ out, postMessage st env channel title text userid buttons = .ok out := by
  unfold postMessage
  dsimp only
  split_ifs
  · exact ⟨_, rfl⟩
  · rw [buildCard_complete title text buttons h]
    dsimp only
    cases env.msgEndpoint with
    | error e => exact ⟨_, rfl⟩
    | ok r =>
      dsimp only
      split_ifs <;> exact ⟨_, rfl⟩

/-- C1 witness: a concrete delivery with the complete main-menu buttons
returns a value (no uncaught fault) even though both endpoints raise. -/
theorem postMessage_total_witness :
    (postMessage stTok envIdle "oc_1" "t" "" none (some mainMenuButtons)).isOk = true := by
  obtain ⟨o, ho⟩ :=
    postMessage_total stTok envIdle "oc_1" "t" "" none (some mainMenuButtons) (by decide)
  rw [ho]
  rfl

/-- C2: a truthy cached token with `now < expiry` is returned unchanged with
no network call and no state change; consequently a refresh followed by a
second call inside the 5400-second validity window issues exactly one
token-endpoint request in total. -/
theorem getToken_idempotent_cache :
    (∀ st env, optStrTruthy st.accessToken = true → env.now < st.tokenExpiry →
       getAccessToken st env =
         { result := st.accessToken, state := st, calls := [], logs := [] }) ∧
    (∀ st env1 env2 tok,
       (optStrTruthy st.accessToken = false ∨ st.tokenExpiry ≤ env1.now) →
       optStrTruthy st.config.feishu_app_id = true →
       optStrTruthy st.config.feishu_app_secret = true →
       env1.tokenEndpoint = .ok { code := some 0, app_access_token := some tok } →
       tok ≠ "" →
       env2.now < env1.now + 5400 →
       (getAccessToken (getAccessToken st env1).state env2).result = some tok ∧
       ((getAccessToken st env1).calls ++
          (getAccessToken (getAccessToken st env1).state env2).calls).length = 1) := by
  constructor
  · exact fun st env h1 h2 => getAccessToken_hit st env h1 h2
  · intro st env1 env2 tok hmiss hid hsec henv htok hwin
    have h1 := getAccessToken_refresh st env1 tok hmiss hid hsec henv
    rw [h1]
    dsimp only
    have htr : optStrTruthy (some tok) = true := by
      simp [optStrTruthy, htok]
    rw [getAccessToken_hit _ env2 htr hwin]
    exact ⟨rfl, rfl⟩

/-- C2 witness: the cache-hit branch at `stTok`, and the one-network-call
scenario over `stFresh` with a refresh at time 10 and a second call at
time 5000. -/
theorem getToken_idempotent_cache_witness :
    getAccessToken stTok envIdle =
      { result := some "tok", state := stTok, calls := [], logs := [] } ∧
    (getAccessToken (getAccessToken stFresh envTokOk).state envLater).result = some "tok" ∧
    ((getAccessToken stFresh envTokOk).calls ++
       (getAccessToken (getAccessToken stFresh envTokOk).state envLater).calls).length = 1 := by
  have h2 := getToken_idempotent_cache.2 stFresh envTokOk envLater "tok"
    (Or.inl rfl) (by decide) (by decide) rfl (by decide) (by decide)
  exact ⟨getToken_idempotent_cache.1 stTok envIdle (by decide) (by decide), h2.1, h2.2⟩

/-- C6: the Message Builder is a pure function of the request — the header is
the plain-text title on the fixed blue template, the body div carries the
body text (a single space when empty), and each button row becomes one
action block in order, each button rendered in within-row order with
`primary` iff its emphasis flag is truthy and its callback value passed
through unchanged. -/
theorem buildCard_spec (title text : String) (rows : List (List BtnDict))
    (h : ∀ row ∈ rows, ∀ b ∈ row, btnComplete b = true) :
    buildCard title text (some rows) =
      .ok { wideScreen := true,
            header := { tag := "plain_text", content := title, template := "blue" },
            elements := CardElement.textDiv (if text == "" then " " else text) ::
              rows.map (fun row => CardElement.action (row.map renderBtn)) } :=
  buildCard_complete title text (some rows) h

/-- C3: a successful issuance at time `now` caches the token with expiry
`now + 5400`; a call at `now + 5400 - 1` is a pure cache hit, while any call
at or after `now + 5400` issues a fresh token-endpoint request. -/
theorem token_expiry_window (st : PluginState) (env1 : Env) (tok : String)
    (hmiss : optStrTruthy st.accessToken = false ∨ st.tokenExpiry ≤ env1.now)
    (hid : optStrTruthy st.config.feishu_app_id = true)
    (hsec : optStrTruthy st.config.feishu_app_secret = true)
    (henv : env1.tokenEndpoint = .ok { code := some 0, app_access_token := some tok })
    (htok : tok ≠ "") :
    (getAccessToken st env1).state.tokenExpiry = env1.now + 5400 ∧
    (getAccessToken st env1).state.accessToken = some tok ∧
    (∀ env2 : Env, env2.now + 1 = env1.now + 5400 →
       getAccessToken (getAccessToken st env1).state env2 =
         { result := some tok, state := (getAccessToken st env1).state,
           calls := [], logs := [] }) ∧
    (∀ env3 : Env, env1.now + 5400 ≤ env3.now →
       (getAccessToken (getAccessToken st env1).state env3).calls =
         [.tokenCall st.session.isSome (st.config.feishu_app_id.getD "")
            (st.config.feishu_app_secret.getD "")]) := by
  have h1 := getAccessToken_refresh st env1 tok hmiss hid hsec henv
  rw [h1]
  dsimp only
  refine ⟨rfl, rfl, ?_, ?_⟩
  · intro env2 h2
    have htr : optStrTruthy (some tok) = true := by simp [optStrTruthy, htok]
    have hlt : env2.now < env1.now + 5400 := by omega
    rw [getAccessToken_hit _ env2 htr hlt]
  · intro env3 h3
    exact getAccessToken_miss_calls _ env3 (Or.inr h3) hid hsec

/-- C3 witness: issuance at time 10 yields expiry 5410; a call at 5409 is a
cache hit and a call at 5410 issues a new token-endpoint request. -/
theorem token_expiry_window_witness :
    (getAccessToken stFresh envTokOk).state.tokenExpiry = 5410 ∧
    getAccessToken (getAccessToken stFresh envTokOk).state envAlmost =
      { result := some "tok", state := (getAccessToken stFresh envTokOk).state,
        calls := [], logs := [] } ∧
    (getAccessToken (getAccessToken stFresh envTokOk).state envExpired).calls =
      [.tokenCall stFresh.session.isSome (stFresh.config.feishu_app_id.getD "")
         (stFresh.config.feishu_app_secret.getD "")] := by
  have h := token_expiry_window stFresh envTokOk "tok"
    (Or.inl rfl) (by decide) (by decide) rfl (by decide)
  exact ⟨h.1, h.2.2.1 envAlmost (by decide), h.2.2.2 envExpired (by decide)⟩

/-- C4: with no valid cached token and a missing or empty credential,
`_get_access_token` warns and returns `None` with no network call, and
`post_message` returns `False` having contacted neither endpoint. -/
theorem missing_creds_no_network (st : PluginState) (env : Env)
    (channel title text : String) (userid : Option String)
    (buttons : Option (List (List BtnDict)))
    (hmiss : optStrTruthy st.accessToken = false ∨ st.tokenExpiry ≤ env.now)
    (hcfg : optStrTruthy st.config.feishu_app_id = false ∨
            optStrTruthy st.config.feishu_app_secret = false) :
    getAccessToken st env =
      { result := none, state := st, calls := [],
        logs := [.warn "❌ 飞书凭证未配置"] } ∧
    postMessage st env channel title text userid buttons =
      .ok { result := false, state := st, calls := [],
            logs := [.warn "❌ 飞书凭证未配置"] } := by
  have h1 := getAccessToken_noCreds st env hmiss hcfg
  refine ⟨h1, ?_⟩
  have h2 := postMessage_noToken st env channel title text userid buttons
    (by rw [h1]; rfl)
  rw [h2, h1]

/-- C4 witness: `stNoCred` (app id absent) yields the warning, `None`, and a
`False` delivery outcome with an empty request trace. -/
theorem missing_creds_no_network_witness :
    getAccessToken stNoCred envIdle =
      { result := none, state := stNoCred, calls := [],
        logs := [.warn "❌ 飞书凭证未配置"] } ∧
    postMessage stNoCred envIdle "oc_1" "t" "" none none =
      .ok { result := false, state := stNoCred, calls := [],
            logs := [.warn "❌ 飞书凭证未配置"] } :=
  missing_creds_no_network stNoCred envIdle "oc_1" "t" "" none none
    (Or.inl rfl) (Or.inl rfl)

/-- C5: on a non-zero token-endpoint code or a transport exception,
`_get_access_token` returns `None` leaving the cached token and expiry
unchanged, and `post_message` returns `False` with no message-endpoint
request in its trace. -/
theorem auth_failure_no_send (st : PluginState) (env : Env)
    (channel title text : String) (userid : Option String)
    (buttons : Option (List (List BtnDict)))
    (hmiss : optStrTruthy st.accessToken = false ∨ st.tokenExpiry ≤ env.now)
    (hid : optStrTruthy st.config.feishu_app_id = true)
    (hsec : optStrTruthy st.config.feishu_app_secret = true)
    (hfail : (∃ e, env.tokenEndpoint = .error e) ∨
             (∃ d, env.tokenEndpoint = .ok d ∧ d.code ≠ some 0)) :
    (getAccessToken st env).result = none ∧
    (getAccessToken st env).state = st ∧
    ∃ out, postMessage st env channel title text userid buttons = .ok out ∧
      out.result = false ∧ out.state = st ∧
      out.calls.all (fun c => !c.isMsg) = true := by
  have key : (getAccessToken st env).result = none ∧
      (getAccessToken st env).state = st ∧
      (getAccessToken st env).calls.all (fun c => !c.isMsg) = true := by
    rcases hfail with ⟨e, he⟩ | ⟨d, hd, hc⟩
    · rw [getAccessToken_exn st env e hmiss hid hsec he]
      exact ⟨rfl, rfl, rfl⟩
    · rw [getAccessToken_badCode st env d hmiss hid hsec hd hc]
      exact ⟨rfl, rfl, rfl⟩
  have hnt : optStrTruthy (getAccessToken st env).result = false := by
    rw [key.1]
    rfl
  have hp := postMessage_noToken st env channel title text userid buttons hnt
  exact ⟨key.1, key.2.1, _, hp, rfl, key.2.1, key.2.2⟩

/-- C5 witness: the token endpoint answering `{code: 99}` yields `None`, an
unchanged state, and a `False` delivery with no message-endpoint request. -/
theorem auth_failure_no_send_witness :
    (getAccessToken stFresh envBad).result = none ∧
    (postMessage stFresh envBad "oc_1" "t" "" none none).map
        (fun o => (o.result, o.state, o.calls.all (fun c => !c.isMsg))) =
      .ok (false, stFresh, true) := by
  obtain ⟨hres, hst, out, ho, hr, hs, hc⟩ :=
    auth_failure_no_send stFresh envBad "oc_1" "t" "" none none
      (Or.inl rfl) (by decide) (by decide)
      (Or.inr ⟨{ code := some 99, app_access_token := none }, rfl, by decide⟩)
  refine ⟨hres, ?_⟩
  rw [ho]
  simp [Except.map, hr, hs, hc]

/-- C6 witness: the main-menu request renders to the expected concrete card. -/
theorem buildCard_spec_witness :
    buildCard menuTitle menuBody (some mainMenuButtons) = .ok menuCard := by
  rw [buildCard_spec menuTitle menuBody mainMenuButtons (by decide)]
  rfl

/-- C7 counterexample: when no valid token is cached, `post_message` does
modify the cached token — the token refresh inside the call caches the newly
issued token even though the message endpoint then fails with code 99. -/
theorem deliver_mutates_cache_cex :
    stFresh.accessToken = none ∧
    (postMessage stFresh envTokOkMsgFail "oc_1" "t" "" none none).map
        (fun o => o.state.accessToken) = .ok (some "tok") := ⟨rfl, rfl⟩

/-- C7 (amended): when a valid token is cached before the call,
`post_message` leaves the whole credential state (cached token and expiry)
unchanged; in particular a non-zero message-endpoint code yields `False`
with the state exactly as before.  (With no valid cached token, the embedded
token refresh may update the cache.) -/
theorem deliver_preserves_cache (st : PluginState) (env : Env)
    (channel title text : String) (userid : Option String)
    (buttons : Option (List (List BtnDict)))
    (h1 : optStrTruthy st.accessToken = true) (h2 : env.now < st.tokenExpiry) :
    (∀ out, postMessage st env channel title text userid buttons = .ok out →
       out.state = st) ∧
    (∀ d, env.msgEndpoint = .ok d → d.code ≠ some 0 →
       ∀ out, postMessage st env channel title text userid buttons = .ok out →
         out.result = false ∧ out.state = st) := by
  have hhit := getAccessToken_hit st env h1 h2
  constructor
  · intro out ho
    have hs := (postMessage_ok_inv st env channel title text userid buttons out ho).1
    rw [hhit] at hs
    exact hs
  · intro d hd hc out ho
    refine ⟨postMessage_fail_result st env channel title text userid buttons d hd hc out ho, ?_⟩
    have hs := (postMessage_ok_inv st env channel title text userid buttons out ho).1
    rw [hhit] at hs
    exact hs

/-- C7 witness: delivery failure (code 99) on `stTok` returns `False` with
the cached token and expiry untouched. -/
theorem deliver_preserves_cache_witness :
    postMessage stTok envMsgFail "oc_1" "t" "" none none = .ok outMsgFail ∧
    outMsgFail.result = false ∧ outMsgFail.state = stTok := by
  have h := (deliver_preserves_cache stTok envMsgFail "oc_1" "t" "" none none
    (by decide) (by decide)).2 { code := some 99 } rfl (by decide) outMsgFail rfl
  exact ⟨rfl, h.1, h.2⟩

/-- C8 evidence: `_get_access_token` (lines 68-91) contains no
mutual-exclusion primitive, so two concurrent callers on an empty cache may
both pass the validity check before either writes; that interleaving issues
two token-endpoint requests, while the serialized schedule issues one. -/
theorem unguarded_refresh_double_fetch :
    (runSchedule 0 "tok" [false, true, false, true] concInit).netCalls = 2 ∧
    (runSchedule 0 "tok" [false, false, true, true] concInit).netCalls = 1 :=
  ⟨rfl, rfl⟩

/-- C9 counterexample: after `stop`, further use does not fail fast — both
`_get_access_token` and the send silently fall back to fresh one-shot
sessions (`pooled = false` on every recorded request) and the delivery
succeeds. -/
theorem stop_reconnects_cex :
    (stop stLive).state.session = none ∧
    (postMessage (stop stLive).state envAllOk "oc_1" "t" "" none none).map
        (fun o => (o.result, o.calls.map NetCall.pooled)) =
      .ok (true, [false, false]) := ⟨rfl, rfl⟩

/-- C9 (amended): `stop` closes the pooled session exactly once (a second
`stop` closes nothing) and clears the token; after shutdown every request
made by `post_message` (token fetch and send alike) uses a fresh one-shot
session rather than the released pool — degraded fallback, not fail-fast. -/
theorem stop_releases_once_fallback :
    (∀ st s, st.session = some s →
       stop st = { state := { st with session := none, accessToken := none },
                   closed := [s], logs := [.info "⏹️ 飞书插件已停止"] } ∧
       (stop (stop st).state).closed = []) ∧
    (∀ st env channel title text userid buttons out,
       st.session = none →
       postMessage st env channel title text userid buttons = .ok out →
       ∀ c ∈ out.calls, c.pooled = false) := by
  constructor
  · intro st s hs
    constructor
    · simp [stop, hs]
    · simp [stop, hs]
  · intro st env channel title text userid buttons out hsess ho c hcmem
    obtain ⟨hstate, hcalls⟩ :=
      postMessage_ok_inv st env channel title text userid buttons out ho
    rcases hcalls with hcalls | ⟨card, hcalls⟩
    · exact getAccessToken_calls_pooled st env hsess c (hcalls ▸ hcmem)
    · rw [hcalls, List.mem_append] at hcmem
      rcases hcmem with hmem | hmem
      · exact getAccessToken_calls_pooled st env hsess c hmem
      · simp at hmem
        subst hmem
        simp [NetCall.pooled, getAccessToken_session st env, hsess]

/-- C9 witness: stopping `stLive` closes session 7 once; a second `stop`
closes nothing; and the post-shutdown delivery's message request is
unpooled. -/
theorem stop_releases_once_fallback_witness :
    (stop stLive).closed = [7] ∧ (stop (stop stLive).state).closed = [] ∧
    NetCall.pooled (NetCall.msgCall false "tok" "oc_1" cardPlain) = false := by
  have h1 := stop_releases_once_fallback.1 stLive 7 rfl
  refine ⟨by rw [h1.1], h1.2, ?_⟩
  exact stop_releases_once_fallback.2 (stop stLive).state envAllOk "oc_1" "t" "" none none
    outAfterStop rfl rfl _ (by decide)

/-- C10: on a `send_feishu_menu` command event, `handle_command` resolves the
channel as `channel or user`; when nothing truthy resolves it does nothing
(no state change, no request); when a channel resolves it delivers exactly
the fixed menu request (`menuTitle`, `menuBody`, the two-row
`mainMenuButtons` grid) through `post_message` and logs the dispatch; the
fixed menu renders to `menuCard` (media-library and search buttons in row
one, settings in row two). -/
theorem handle_command_menu :
    (∀ st env e, e.action = some "send_feishu_menu" →
       optStrTruthy (orStr e.channel e.user) = false →
       handleCommand st env e = .ok { state := st, calls := [], logs := [] }) ∧
    (∀ st env e c, e.action = some "send_feishu_menu" →
       orStr e.channel e.user = some c → c ≠ "" →
       handleCommand st env e =
         match postMessage st env c menuTitle menuBody none (some mainMenuButtons) with
         | .error err => .error err
         | .ok o => .ok { state := o.state, calls := o.calls,
                          logs := o.logs ++ [.info ("📤 已发送菜单至 " ++ c)] }) ∧
    buildCard menuTitle menuBody (some mainMenuButtons) = .ok menuCard := by
  refine ⟨?_, ?_, rfl⟩
  · intro st env e ha hch
    simp [handleCommand, ha, hch]
  · intro st env e c ha hch hc
    have htr : optStrTruthy (some c) = true := by
      simp [optStrTruthy, hc]
    simp [handleCommand, ha, hch, htr, sendMainMenu]

/-- C10 witness: an event with only an empty channel and no user is ignored;
an event resolving to `"oc_1"` dispatches the fixed menu delivery. -/
theorem handle_command_menu_witness :
    handleCommand stTok envIdle
        { action := some "send_feishu_menu", channel := some "", user := none } =
      .ok { state := stTok, calls := [], logs := [] } ∧
    handleCommand stTok envMsgFail
        { action := some "send_feishu_menu", channel := none, user := some "oc_1" } =
      match postMessage stTok envMsgFail "oc_1" menuTitle menuBody none
          (some mainMenuButtons) with
      | .error err => .error err
      | .ok o => .ok { state := o.state, calls := o.calls,
                       logs := o.logs ++ [.info ("📤 已发送菜单至 " ++ "oc_1")] } :=
  ⟨handle_command_menu.1 stTok envIdle _ rfl rfl,
   handle_command_menu.2.1 stTok envMsgFail _ "oc_1" rfl rfl (by decide)⟩
